import Mathlib

/-!
Verification of the speech-recorder application core against its design
specification.  The Python modules `keyboard_handler.py`, `audio_recorder.py`,
`speech_recorder.py` and `speech_to_text.py` are embedded shallowly: each
class becomes a structure holding its mutable attributes, and each method a
pure function from the old state to the new state together with its return
value.  Concurrency claims are settled over an explicit interleaving
semantics: the racing method bodies are split into the micro-steps the
interpreter actually executes (one attribute read or write per step), and a
schedule picks which thread moves.
-/

/-! ## keyboard_handler.py — GlobalKeyboardHandler

Keys are identified by natural numbers.  The handler keeps the configured
combination, the set of currently pressed keys, and the `recording_active`
debounce flag. -/

structure GlobalKeyboardHandler where
  toggle_key_combination : Finset Nat
  currently_pressed : Finset Nat
  recording_active : Bool
deriving DecidableEq

/-- Method `GlobalKeyboardHandler._is_toggle_combination_pressed`:
`self.toggle_key_combination.issubset(self.currently_pressed)`. -/
def GlobalKeyboardHandler.is_toggle_combination_pressed
    (h : GlobalKeyboardHandler) : Bool :=
  h.toggle_key_combination ⊆ h.currently_pressed

/-- Method `GlobalKeyboardHandler._on_key_press`: add the key to
`currently_pressed`; if `_is_toggle_combination_pressed()` now holds (the
subset test below, on the updated pressed set) and `recording_active` is not
set, set it and dispatch the callback to a worker thread.  The returned Bool
records whether the toggle callback was dispatched. -/
def GlobalKeyboardHandler.on_key_press (h : GlobalKeyboardHandler) (k : Nat) :
    GlobalKeyboardHandler × Bool :=
  let pressed := insert k h.currently_pressed
  if h.toggle_key_combination ⊆ pressed ∧ h.recording_active = false then
    (⟨h.toggle_key_combination, pressed, true⟩, true)
  else
    (⟨h.toggle_key_combination, pressed, h.recording_active⟩, false)

/-- Method `GlobalKeyboardHandler._on_key_release`: remove the key if present
(`Finset.erase` is a no-op on an absent key, as the guarded `remove` is);
if `_is_toggle_combination_pressed()` no longer holds, clear
`recording_active`.  The release path never fires the callback. -/
def GlobalKeyboardHandler.on_key_release (h : GlobalKeyboardHandler) (k : Nat) :
    GlobalKeyboardHandler × Bool :=
  let pressed := h.currently_pressed.erase k
  if h.toggle_key_combination ⊆ pressed then
    (⟨h.toggle_key_combination, pressed, h.recording_active⟩, false)
  else
    (⟨h.toggle_key_combination, pressed, false⟩, false)

/-- A raw key event delivered by the OS listener. -/
inductive KeyEvent where
  | press (k : Nat)
  | release (k : Nat)
deriving DecidableEq

/-- Deliver one key event to the handler. -/
def GlobalKeyboardHandler.step (h : GlobalKeyboardHandler) :
    KeyEvent → GlobalKeyboardHandler × Bool
  | KeyEvent.press k => h.on_key_press k
  | KeyEvent.release k => h.on_key_release k

/-- Number of toggle-callback invocations over a whole event sequence. -/
def countFires (h : GlobalKeyboardHandler) : List KeyEvent → Nat
  | [] => 0
  | e :: es =>
      let r := h.step e
      (if r.2 then 1 else 0) + countFires r.1 es

/-- Number of transitions of the configured combination from
not-fully-pressed to fully-pressed over the event sequence. -/
def countPressEdges (h : GlobalKeyboardHandler) : List KeyEvent → Nat
  | [] => 0
  | e :: es =>
      let r := h.step e
      (if ¬ h.is_toggle_combination_pressed ∧
          r.1.is_toggle_combination_pressed then 1 else 0)
        + countPressEdges r.1 es

/-- The handler as constructed by `__init__` (with a caller-chosen
combination, as `set_toggle_keys` allows): no key pressed, flag clear. -/
def GlobalKeyboardHandler.init (combo : Finset Nat) : GlobalKeyboardHandler :=
  ⟨combo, ∅, false⟩

/-- The debounce invariant: `recording_active` tracks exactly whether the
combination is fully pressed.  One event preserves it. -/
theorem step_keeps_invariant (h : GlobalKeyboardHandler) (e : KeyEvent)
    (inv : h.recording_active = h.is_toggle_combination_pressed) :
    (h.step e).1.recording_active = (h.step e).1.is_toggle_combination_pressed := by
  cases e with
  | press k =>
      simp only [GlobalKeyboardHandler.step, GlobalKeyboardHandler.on_key_press]
      by_cases hsub : h.toggle_key_combination ⊆ insert k h.currently_pressed
      · cases hact : h.recording_active with
        | false =>
            simp [hsub, hact, GlobalKeyboardHandler.is_toggle_combination_pressed]
        | true =>
            simp [hsub, hact, GlobalKeyboardHandler.is_toggle_combination_pressed]
      · simp only [GlobalKeyboardHandler.is_toggle_combination_pressed] at inv
        have hbefore : ¬ h.toggle_key_combination ⊆ h.currently_pressed := fun hs =>
          hsub (hs.trans (Finset.subset_insert k h.currently_pressed))
        simp [hsub, hbefore, inv,
          GlobalKeyboardHandler.is_toggle_combination_pressed]
  | release k =>
      simp only [GlobalKeyboardHandler.step, GlobalKeyboardHandler.on_key_release]
      by_cases hsub : h.toggle_key_combination ⊆ h.currently_pressed.erase k
      · have hbefore : h.toggle_key_combination ⊆ h.currently_pressed :=
          hsub.trans (Finset.erase_subset k h.currently_pressed)
        simp only [GlobalKeyboardHandler.is_toggle_combination_pressed] at inv
        simp [hsub, hbefore, inv,
          GlobalKeyboardHandler.is_toggle_combination_pressed]
      · simp [hsub, GlobalKeyboardHandler.is_toggle_combination_pressed]

/-- Under the debounce invariant, the callback count equals the press-edge
count, by induction over the event list. -/
theorem countFires_eq_countPressEdges_of_inv (es : List KeyEvent) :
    ∀ h : GlobalKeyboardHandler,
      h.recording_active = h.is_toggle_combination_pressed →
      countFires h es = countPressEdges h es := by
  induction es with
  | nil => intro h _; rfl
  | cons e es ih =>
      intro h inv
      have hrest := ih (h.step e).1 (step_keeps_invariant h e inv)
      simp only [countFires, countPressEdges, hrest]
      congr 1
      simp only [GlobalKeyboardHandler.is_toggle_combination_pressed] at inv
      cases e with
      | press k =>
          simp only [GlobalKeyboardHandler.step, GlobalKeyboardHandler.on_key_press]
          by_cases hsub : h.toggle_key_combination ⊆ insert k h.currently_pressed
          · by_cases hbefore : h.toggle_key_combination ⊆ h.currently_pressed
            · have hact : h.recording_active = true := by simp [inv, hbefore]
              simp [hsub, hbefore, hact,
                GlobalKeyboardHandler.is_toggle_combination_pressed]
            · have hact : h.recording_active = false := by simp [inv, hbefore]
              simp [hsub, hbefore, hact,
                GlobalKeyboardHandler.is_toggle_combination_pressed]
          · have hbefore : ¬ h.toggle_key_combination ⊆ h.currently_pressed := fun hs =>
              hsub (hs.trans (Finset.subset_insert k h.currently_pressed))
            simp [hsub, hbefore,
              GlobalKeyboardHandler.is_toggle_combination_pressed]
      | release k =>
          simp only [GlobalKeyboardHandler.step, GlobalKeyboardHandler.on_key_release]
          by_cases hsub : h.toggle_key_combination ⊆ h.currently_pressed.erase k
          · have hbefore : h.toggle_key_combination ⊆ h.currently_pressed :=
              hsub.trans (Finset.erase_subset k h.currently_pressed)
            simp [hsub, hbefore,
              GlobalKeyboardHandler.is_toggle_combination_pressed]
          · simp [hsub, GlobalKeyboardHandler.is_toggle_combination_pressed]

/-- C1: For every sequence of key-down/key-up events delivered to the
hotkey watcher with a nonempty configured combination, the number of
toggle-callback invocations equals the number of transitions of the
combination from not-fully-pressed to fully-pressed: holding the full
combination fires the callback exactly once, and it can fire again only
after at least one combination key has been released. -/
theorem hotkey_fires_eq_press_edges (combo : Finset Nat) (es : List KeyEvent)
    (hne : combo.Nonempty) :
    countFires (GlobalKeyboardHandler.init combo) es
      = countPressEdges (GlobalKeyboardHandler.init combo) es := by
  apply countFires_eq_countPressEdges_of_inv
  simp only [GlobalKeyboardHandler.init,
    GlobalKeyboardHandler.is_toggle_combination_pressed]
  have : ¬ combo ⊆ (∅ : Finset Nat) := by
    intro hsub
    rcases hne with ⟨x, hx⟩
    exact absurd (hsub hx) (Finset.not_mem_empty x)
  simp [this]

/-- Witness for C1: a concrete run with combo {0, 1}; pressing both keys,
holding (repeat press), releasing and pressing again fires exactly the two
press edges. -/
theorem hotkey_fires_eq_press_edges_witness :
    ({0, 1} : Finset Nat).Nonempty ∧
      countFires (GlobalKeyboardHandler.init {0, 1})
          [KeyEvent.press 0, KeyEvent.press 1, KeyEvent.press 1,
           KeyEvent.release 1, KeyEvent.press 1]
        = countPressEdges (GlobalKeyboardHandler.init {0, 1})
          [KeyEvent.press 0, KeyEvent.press 1, KeyEvent.press 1,
           KeyEvent.release 1, KeyEvent.press 1] :=
  ⟨⟨0, by decide⟩,
    hotkey_fires_eq_press_edges {0, 1}
      [KeyEvent.press 0, KeyEvent.press 1, KeyEvent.press 1,
       KeyEvent.release 1, KeyEvent.press 1] ⟨0, by decide⟩⟩

/-! ## audio_recorder.py — AudioRecorder

Sample blocks are opaque and identified by natural numbers; `audio_data` is
the ordered list of blocks appended by the device callback.  Saving the
audio file is modelled as returning the block list that `stop_recording`
concatenates and writes. -/

structure AudioRecorder where
  is_recording : Bool
  audio_data : List Nat
deriving DecidableEq

/-- Method `AudioRecorder.start_recording`: refuse if already recording; else set
the flag, reset `audio_data`, and launch the capture thread.  Returns the
new state and the success flag. -/
def AudioRecorder.start_recording (r : AudioRecorder) : AudioRecorder × Bool :=
  if r.is_recording then (r, false)
  else (⟨true, []⟩, true)

/-- Method `AudioRecorder.stop_recording`: refuse (return `None`) if not
recording; else clear the flag, join the capture thread, and save the
accumulated audio if any was captured.  Returns the new state and the saved
file (`some` of the concatenated block list) or `none`. -/
def AudioRecorder.stop_recording (r : AudioRecorder) :
    AudioRecorder × Option (List Nat) :=
  if ¬ r.is_recording then (r, none)
  else if r.audio_data.length > 0 then
    (⟨false, r.audio_data⟩, some r.audio_data)
  else
    (⟨false, r.audio_data⟩, none)

/-- The device callback body in `AudioRecorder._record_audio`: append a
copy of the incoming block only while `is_recording` holds. -/
def AudioRecorder.audio_callback (r : AudioRecorder) (block : Nat) : AudioRecorder :=
  if r.is_recording then ⟨r.is_recording, r.audio_data ++ [block]⟩ else r

/-- The exception handler of `AudioRecorder._record_audio`: on a device
error the capture loop prints the error and clears only its own
`is_recording` flag; the accumulated audio is kept. -/
def AudioRecorder.device_error (r : AudioRecorder) : AudioRecorder :=
  ⟨false, r.audio_data⟩

/-! ## speech_recorder.py — SpeechRecorder (the Coordinator)

The coordinator owns the audio recorder, its own `is_recording` flag, the
`current_audio_file` slot, and the collaborator status it consults in
`start_service` (`speech_processor.is_model_loaded()` and
`audio_recorder.is_microphone_available()`), modelled as two read-only
booleans of the environment. -/

structure SpeechRecorder where
  audio : AudioRecorder
  is_recording : Bool
  current_audio_file : Option (List Nat)
  model_loaded : Bool
  mic_available : Bool
  keyboard_listening : Bool
deriving DecidableEq

/-- Method `SpeechRecorder.start_service`: fails if the model is not loaded or no
microphone is available; otherwise starts the keyboard listener (which
fails if already listening). -/
def SpeechRecorder.start_service (s : SpeechRecorder) : SpeechRecorder × Bool :=
  if ¬ s.model_loaded then (s, false)
  else if ¬ s.mic_available then (s, false)
  else if s.keyboard_listening then (s, false)
  else ({ s with keyboard_listening := true }, true)

/-- Method `SpeechRecorder.start_recording`: refuse if the coordinator is already
recording; else delegate to `AudioRecorder.start_recording` and record
success.  Note that neither `model_loaded` nor `mic_available` is
consulted. -/
def SpeechRecorder.start_recording (s : SpeechRecorder) : SpeechRecorder × Bool :=
  if s.is_recording then (s, false)
  else
    let r := s.audio.start_recording
    if r.2 then ({ s with audio := r.1, is_recording := true }, true)
    else ({ s with audio := r.1 }, false)

/-- Method `SpeechRecorder.stop_recording`: refuse (return `None`) if not
recording; else stop the audio recorder, clear the flag, store the saved
file path, and, when a file was saved, spawn exactly one
`_process_transcription` background thread.  The `Nat` component counts the
transcription jobs spawned by the call. -/
def SpeechRecorder.stop_recording (s : SpeechRecorder) :
    SpeechRecorder × Option (List Nat) × Nat :=
  if ¬ s.is_recording then (s, none, 0)
  else
    let r := s.audio.stop_recording
    let s1 : SpeechRecorder :=
      { s with audio := r.1, is_recording := false, current_audio_file := r.2 }
    match r.2 with
    | some f => (s1, some f, 1)
    | none => (s1, none, 0)

/-- Method `SpeechRecorder.toggle_recording`: stop if recording, else start. -/
def SpeechRecorder.toggle_recording (s : SpeechRecorder) : SpeechRecorder :=
  if s.is_recording then (s.stop_recording).1 else (s.start_recording).1

/-- A device error mid-capture as the coordinator sees it: the capture
exception handler of the capture thread runs inside the audio recorder only; no field of
the coordinator itself is touched. -/
def SpeechRecorder.device_error (s : SpeechRecorder) : SpeechRecorder :=
  { s with audio := s.audio.device_error }

/-- C3 counterexample: the claim says `start()` succeeds only when the
transcription engine is ready, but `start_recording` never consults
`model_loaded`: on an idle coordinator whose model failed to load, the
call succeeds and transitions to Capturing. -/
theorem start_succeeds_without_engine_ready :
    let s : SpeechRecorder :=
      ⟨⟨false, []⟩, false, none, false, false, false⟩
    s.model_loaded = false ∧ s.mic_available = false ∧
      (s.start_recording).2 = true ∧ (s.start_recording).1.is_recording = true := by
  decide

/-- C3 amended: `start()` succeeds exactly when neither the coordinator nor
the audio recorder is already recording; the engine-ready and
device-available preconditions are enforced by `start_service` (which fails
with no state change when they do not hold), not by `start_recording`; and
a `start()` refused because the coordinator is Capturing leaves the whole
state unchanged. -/
theorem start_preconditions_checked_in_start_service (s : SpeechRecorder) :
    ((s.start_recording).2 = true ↔
      s.is_recording = false ∧ s.audio.is_recording = false) ∧
    (s.is_recording = true → s.start_recording = (s, false)) ∧
    (s.model_loaded = false → s.start_service = (s, false)) ∧
    (s.mic_available = false → s.start_service = (s, false)) := by
  refine ⟨?_, ?_, ?_, ?_⟩
  · constructor
    · intro hsucc
      by_cases h1 : s.is_recording
      · simp [SpeechRecorder.start_recording, h1] at hsucc
      · by_cases h2 : s.audio.is_recording
        · simp [SpeechRecorder.start_recording, AudioRecorder.start_recording,
            h1, h2] at hsucc
        · exact ⟨by simp [h1], by simp [h2]⟩
    · rintro ⟨h1, h2⟩
      simp [SpeechRecorder.start_recording, AudioRecorder.start_recording, h1, h2]
  · intro h1
    simp [SpeechRecorder.start_recording, h1]
  · intro h
    simp [SpeechRecorder.start_service, h]
  · intro h
    by_cases hm : s.model_loaded
    · simp [SpeechRecorder.start_service, hm, h]
    · simp [SpeechRecorder.start_service, hm]

/-- Witness for the amended C3 theorem at a concrete idle state. -/
theorem start_preconditions_checked_in_start_service_witness :
    ((SpeechRecorder.start_recording ⟨⟨false, []⟩, false, none, false, false, false⟩).2 = true ↔
      (false : Bool) = false ∧ (false : Bool) = false) ∧
    ((false : Bool) = true →
      SpeechRecorder.start_recording ⟨⟨false, []⟩, false, none, false, false, false⟩
        = (⟨⟨false, []⟩, false, none, false, false, false⟩, false)) ∧
    ((false : Bool) = false →
      SpeechRecorder.start_service ⟨⟨false, []⟩, false, none, false, false, false⟩
        = (⟨⟨false, []⟩, false, none, false, false, false⟩, false)) ∧
    ((false : Bool) = false →
      SpeechRecorder.start_service ⟨⟨false, []⟩, false, none, false, false, false⟩
        = (⟨⟨false, []⟩, false, none, false, false, false⟩, false)) :=
  start_preconditions_checked_in_start_service
    ⟨⟨false, []⟩, false, none, false, false, false⟩

/-- Helper: `start_recording` on a Capturing coordinator is a pure refusal. -/
theorem start_recording_of_recording (s : SpeechRecorder)
    (h : s.is_recording = true) : s.start_recording = (s, false) := by
  simp [SpeechRecorder.start_recording, h]

/-- C4: a `start()` on a Coordinator already Capturing returns failure and
leaves the whole state — in particular the accumulated
frame list `audio_data` of the current session — exactly as it was before the call. -/
theorem start_on_capturing_keeps_frames (s : SpeechRecorder)
    (h : s.is_recording = true) :
    s.start_recording = (s, false) ∧
      (s.start_recording).1.audio.audio_data = s.audio.audio_data := by
  have heq := start_recording_of_recording s h
  exact ⟨heq, by rw [heq]⟩

/-- Witness for C4: a Capturing coordinator with two accumulated blocks. -/
theorem start_on_capturing_keeps_frames_witness :
    SpeechRecorder.start_recording ⟨⟨true, [3, 4]⟩, true, none, true, true, true⟩
        = (⟨⟨true, [3, 4]⟩, true, none, true, true, true⟩, false) ∧
      (SpeechRecorder.start_recording
          ⟨⟨true, [3, 4]⟩, true, none, true, true, true⟩).1.audio.audio_data
        = [3, 4] :=
  start_on_capturing_keeps_frames
    ⟨⟨true, [3, 4]⟩, true, none, true, true, true⟩ rfl

/-- C5: stopping a session with zero captured frames saves no audio file
and spawns no transcription job (so the dispatcher is never invoked and
nothing reaches the record store, whose only writer is the job body);
stopping a session with at least one frame saves the audio and spawns
exactly one transcription job. -/
theorem stop_zero_frames_no_job (s : SpeechRecorder)
    (h1 : s.is_recording = true) (h2 : s.audio.is_recording = true) :
    (s.audio.audio_data = [] →
      (s.stop_recording).2.1 = none ∧ (s.stop_recording).2.2 = 0) ∧
    (s.audio.audio_data ≠ [] →
      (s.stop_recording).2.1 = some s.audio.audio_data ∧
        (s.stop_recording).2.2 = 1) := by
  constructor
  · intro hz
    simp [SpeechRecorder.stop_recording, AudioRecorder.stop_recording, h1, h2, hz]
  · intro hnz
    have hlen : s.audio.audio_data.length > 0 := List.length_pos.mpr hnz
    simp [SpeechRecorder.stop_recording, AudioRecorder.stop_recording,
      h1, h2, hlen]

/-- Witness for C5: stopping with zero frames yields no file and no job. -/
theorem stop_zero_frames_no_job_witness :
    (([] : List Nat) = [] →
      (SpeechRecorder.stop_recording ⟨⟨true, []⟩, true, none, true, true, true⟩).2.1
          = none ∧
        (SpeechRecorder.stop_recording ⟨⟨true, []⟩, true, none, true, true, true⟩).2.2
          = 0) ∧
    (([] : List Nat) ≠ [] →
      (SpeechRecorder.stop_recording ⟨⟨true, []⟩, true, none, true, true, true⟩).2.1
          = some [] ∧
        (SpeechRecorder.stop_recording ⟨⟨true, []⟩, true, none, true, true, true⟩).2.2
          = 1) :=
  stop_zero_frames_no_job ⟨⟨true, []⟩, true, none, true, true, true⟩ rfl rfl

/-- C7: evaluating the code at the failing input.  A coordinator is
Capturing with one frame when the device stream raises: the exception
handler clears only `AudioRecorder.is_recording`, so the Coordinator still
reports Capturing, a subsequent `start()` fails (it does not succeed
"without any other intervention" as the specification requires), and the
session is merely silenced (the callback appends nothing further) rather
than marked Failed and reported. -/
theorem device_error_leaves_coordinator_stuck :
    (SpeechRecorder.device_error ⟨⟨true, [7]⟩, true, none, true, true, true⟩).is_recording
        = true ∧
      ((SpeechRecorder.device_error
          ⟨⟨true, [7]⟩, true, none, true, true, true⟩).start_recording).2 = false ∧
      (SpeechRecorder.device_error
          ⟨⟨true, [7]⟩, true, none, true, true, true⟩).audio.is_recording = false ∧
      AudioRecorder.audio_callback
          (SpeechRecorder.device_error
            ⟨⟨true, [7]⟩, true, none, true, true, true⟩).audio 9
        = ⟨false, [7]⟩ := by
  decide

/-! ## The start() race (C2)

`SpeechRecorder.start_recording` and the inner
`AudioRecorder.start_recording` are guarded only by check-then-act on plain
attributes; there is no lock.  The body is split into its micro-steps: the
two reads (line 71 of `speech_recorder.py`, line 31 of
`audio_recorder.py`) and the two write groups (lines 34–36 of
`audio_recorder.py`; line 76 of `speech_recorder.py`). -/

inductive StartPC where
  | checkSelf
  | checkAudio
  | commitAudio
  | commitSelf
  | done (result : Bool)
deriving DecidableEq

/-- One micro-step of one thread executing `start_recording`, given the
shared attributes; returns the new program counter and shared state. -/
def startMicroStep : StartPC → Bool → Bool → List Nat →
    StartPC × Bool × Bool × List Nat
  | StartPC.checkSelf, sr, ar, ad =>
      (if sr then StartPC.done false else StartPC.checkAudio, sr, ar, ad)
  | StartPC.checkAudio, sr, ar, ad =>
      (if ar then StartPC.done false else StartPC.commitAudio, sr, ar, ad)
  | StartPC.commitAudio, sr, _, _ => (StartPC.commitSelf, sr, true, [])
  | StartPC.commitSelf, _, ar, ad => (StartPC.done true, true, ar, ad)
  | StartPC.done r, sr, ar, ad => (StartPC.done r, sr, ar, ad)

/-- Two threads racing through `start_recording` over the shared
coordinator attributes. -/
structure StartRace where
  sr_rec : Bool
  ar_rec : Bool
  audio_data : List Nat
  t1 : StartPC
  t2 : StartPC
deriving DecidableEq

/-- Let the scheduled thread (`true` = thread 1) take one micro-step. -/
def startRaceStep (s : StartRace) (scheduleT1 : Bool) : StartRace :=
  if scheduleT1 then
    let r := startMicroStep s.t1 s.sr_rec s.ar_rec s.audio_data
    ⟨r.2.1, r.2.2.1, r.2.2.2, r.1, s.t2⟩
  else
    let r := startMicroStep s.t2 s.sr_rec s.ar_rec s.audio_data
    ⟨r.2.1, r.2.2.1, r.2.2.2, s.t1, r.1⟩

/-- Run a whole schedule. -/
def runStartRace : List Bool → StartRace → StartRace
  | [], s => s
  | c :: cs, s => runStartRace cs (startRaceStep s c)

/-- C2 counterexample: from an Idle coordinator, the interleaving that runs
both reads of each thread before either write makes BOTH concurrent
`start()` calls return success — the claimed mutual-exclusion point does
not exist in the code (no lock is taken anywhere), so it is not the case
that exactly one call wins while the other observes failure. -/
theorem concurrent_starts_both_succeed :
    (runStartRace [true, false, true, false, true, true, false, false]
        ⟨false, false, [], StartPC.checkSelf, StartPC.checkSelf⟩).t1
        = StartPC.done true ∧
      (runStartRace [true, false, true, false, true, true, false, false]
          ⟨false, false, [], StartPC.checkSelf, StartPC.checkSelf⟩).t2
        = StartPC.done true := by
  decide

/-- C2 amended: the code has no lock, so the exactly-one-winner guarantee
holds only when each call executes atomically (serialized): on an Idle
coordinator the first `start()` succeeds and a second `start()` run after
it fails and changes nothing, while a genuinely interleaved execution can
let both calls succeed (see the counterexample). -/
theorem serialized_starts_one_winner (s : SpeechRecorder)
    (h1 : s.is_recording = false) (h2 : s.audio.is_recording = false) :
    (s.start_recording).2 = true ∧
      ((s.start_recording).1.start_recording)
        = ((s.start_recording).1, false) := by
  constructor
  · simp [SpeechRecorder.start_recording, AudioRecorder.start_recording, h1, h2]
  · have hstate : (s.start_recording).1.is_recording = true := by
      simp [SpeechRecorder.start_recording, AudioRecorder.start_recording, h1, h2]
    exact start_recording_of_recording (s.start_recording).1 hstate

/-- Witness for the amended C2 theorem on a concrete Idle coordinator. -/
theorem serialized_starts_one_winner_witness :
    ((SpeechRecorder.start_recording
        ⟨⟨false, []⟩, false, none, true, true, true⟩).2 = true) ∧
      ((SpeechRecorder.start_recording
            ⟨⟨false, []⟩, false, none, true, true, true⟩).1.start_recording
        = ((SpeechRecorder.start_recording
            ⟨⟨false, []⟩, false, none, true, true, true⟩).1, false)) :=
  serialized_starts_one_winner ⟨⟨false, []⟩, false, none, true, true, true⟩ rfl rfl

/-! ## speech_to_text.py — SpeechToTextProcessor

The whisper model handle is opaque: a loaded handle is identified by the
name of the model it was loaded from (`model = none` means not loaded, as
after a failed `_load_model`).  The external engine call is a parameter:
it either raises (an error detail string) or returns the raw text and the
list of segments, each optionally carrying an `avg_logprob` rational. -/

structure SpeechToTextProcessor where
  model_name : String
  model : Option String
deriving DecidableEq

/-- Method `SpeechToTextProcessor.get_available_models`. -/
def SpeechToTextProcessor.get_available_models : List String :=
  ["tiny", "base", "small", "medium", "large"]

/-- Method `SpeechToTextProcessor._load_model`: set `self.model` from
`whisper.load_model(self.model_name)`, or to `None` when the load raises;
`loadOk` is the outcome of that external call. -/
def SpeechToTextProcessor.load_model (p : SpeechToTextProcessor)
    (loadOk : Bool) : SpeechToTextProcessor :=
  { p with model := if loadOk then some p.model_name else none }

/-- Method `SpeechToTextProcessor.change_model`: reject a name outside
`get_available_models`; otherwise overwrite `model_name`, clear `model`,
reload, and report `is_model_loaded()`. -/
def SpeechToTextProcessor.change_model (p : SpeechToTextProcessor)
    (loadOk : Bool) (name : String) : SpeechToTextProcessor × Bool :=
  if name ∉ SpeechToTextProcessor.get_available_models then (p, false)
  else
    let p1 : SpeechToTextProcessor := { p with model_name := name, model := none }
    let p2 := p1.load_model loadOk
    (p2, p2.model.isSome)

/-- Per-segment confidence in `transcribe_audio_file`:
`min(1.0, max(0.0, avg_logprob + 1.0))`. -/
def segment_confidence (avg_logprob : ℚ) : ℚ :=
  min 1 (max 0 (avg_logprob + 1))

/-- The confidence aggregation of `transcribe_audio_file`: clamp the
`avg_logprob` of every segment that carries one, then average; `0.0` when
no segment carries the key (or there are no segments). -/
def average_confidence (segments : List (Option ℚ)) : ℚ :=
  if 0 < ((segments.filterMap id).map segment_confidence).length then
    ((segments.filterMap id).map segment_confidence).sum
      / (((segments.filterMap id).map segment_confidence).length : ℚ)
  else 0

/-- The Python method `str.strip`: drop leading and trailing whitespace.  Defined
structurally over the character list so that it evaluates inside the
kernel. -/
def String.strip (s : String) : String :=
  String.mk
    (((s.data.dropWhile Char.isWhitespace).reverse.dropWhile
        Char.isWhitespace).reverse)

/-- Stripping the empty string is the empty string. -/
theorem strip_empty_string : "".strip = "" := rfl

/-- The dictionary `transcribe_audio_file` returns (the `language` and
`full_result` keys carry no verified content and are omitted); `error` is
`some` exactly when the dictionary has an `error` key. -/
structure TranscriptionResult where
  success : Bool
  error : Option String
  text : String
  confidence : ℚ
deriving DecidableEq

/-- Method `SpeechToTextProcessor.transcribe_audio_file`: fail fast when the model
is not loaded or the file does not exist; otherwise run the engine,
returning its error as a failure dictionary, or the stripped text plus the
averaged segment confidence on success. -/
def SpeechToTextProcessor.transcribe_audio_file (p : SpeechToTextProcessor)
    (file_exists : Bool)
    (engine : Except String (String × List (Option ℚ))) : TranscriptionResult :=
  if p.model = none then
    ⟨false, some "Whisper model not loaded", "", 0⟩
  else if file_exists = false then
    ⟨false, some "Audio file not found", "", 0⟩
  else
    match engine with
    | Except.error e => ⟨false, some e, "", 0⟩
    | Except.ok (text, segments) =>
        ⟨true, none, text.strip, average_confidence segments⟩

/-- The externally visible effects of one `_process_transcription` job. -/
structure ProcessOutcome where
  record_persisted : Option (String × ℚ)
  completion_event : Bool
  failure_reason : Option String
deriving DecidableEq

/-- Method `SpeechRecorder._process_transcription` applied to the transcription
result: persist the record and fire the completion callback only when
the result is a success with non-empty stripped text; otherwise print the
failure reason — the error entry of the result dictionary, defaulting to
the fixed no-speech-detected message — and do neither. -/
def SpeechRecorder.process_transcription (result : TranscriptionResult) :
    ProcessOutcome :=
  if result.success = true ∧ result.text.strip ≠ "" then
    ⟨some (result.text, result.confidence), true, none⟩
  else
    ⟨none, false, some (result.error.getD "No speech detected")⟩

/-- C6: a record is persisted and the completion callback fired exactly on
engine success with non-empty trimmed text; an engine success with empty
trimmed text and an engine error both leave the job failed with no record
persisted and no completion event, and the two failure cases carry distinct
reasons — the fixed no-speech-detected message versus the engine
error detail. -/
theorem failed_transcriptions_not_persisted :
    (∀ r : TranscriptionResult,
      ((SpeechRecorder.process_transcription r).record_persisted.isSome = true
          ↔ r.success = true ∧ r.text.strip ≠ "") ∧
      ((SpeechRecorder.process_transcription r).completion_event = true
          ↔ r.success = true ∧ r.text.strip ≠ "")) ∧
    (∀ (p : SpeechToTextProcessor) (text : String) (segs : List (Option ℚ)),
      p.model.isSome = true → text.strip = "" →
        SpeechRecorder.process_transcription
            (p.transcribe_audio_file true (Except.ok (text, segs)))
          = ⟨none, false, some "No speech detected"⟩) ∧
    (∀ (p : SpeechToTextProcessor) (e : String),
      p.model.isSome = true →
        SpeechRecorder.process_transcription
            (p.transcribe_audio_file true (Except.error e))
          = ⟨none, false, some e⟩) := by
  refine ⟨?_, ?_, ?_⟩
  · intro r
    by_cases h : r.success = true ∧ r.text.strip ≠ ""
    · simp [SpeechRecorder.process_transcription, h]
    · simp [SpeechRecorder.process_transcription, h]
  · intro p text segs hm ht
    have hmodel : ¬ p.model = none := by
      cases hp : p.model with
      | none => rw [hp] at hm; simp at hm
      | some v => simp
    simp [SpeechToTextProcessor.transcribe_audio_file, hmodel,
      SpeechRecorder.process_transcription, ht, strip_empty_string]
  · intro p e hm
    have hmodel : ¬ p.model = none := by
      cases hp : p.model with
      | none => rw [hp] at hm; simp at hm
      | some v => simp
    simp [SpeechToTextProcessor.transcribe_audio_file, hmodel,
      SpeechRecorder.process_transcription]

/-- Witness for C6: an empty engine result and an engine error on a
concrete loaded processor both fail without persisting, with the two
distinct reasons. -/
theorem failed_transcriptions_not_persisted_witness :
    (((SpeechRecorder.process_transcription
          ⟨true, none, "hi", 1⟩).record_persisted.isSome = true
        ↔ (true : Bool) = true ∧ ("hi" : String).strip ≠ "") ∧
      ((SpeechRecorder.process_transcription
          ⟨true, none, "hi", 1⟩).completion_event = true
        ↔ (true : Bool) = true ∧ ("hi" : String).strip ≠ "")) ∧
    (SpeechRecorder.process_transcription
        (SpeechToTextProcessor.transcribe_audio_file ⟨"base", some "base"⟩
          true (Except.ok ("", [])))
      = ⟨none, false, some "No speech detected"⟩) ∧
    (SpeechRecorder.process_transcription
        (SpeechToTextProcessor.transcribe_audio_file ⟨"base", some "base"⟩
          true (Except.error "engine crashed"))
      = ⟨none, false, some "engine crashed"⟩) :=
  ⟨failed_transcriptions_not_persisted.1 ⟨true, none, "hi", 1⟩,
    failed_transcriptions_not_persisted.2.1 ⟨"base", some "base"⟩ "" [] rfl rfl,
    failed_transcriptions_not_persisted.2.2 ⟨"base", some "base"⟩ "engine crashed" rfl⟩

/-- Each clamped per-segment confidence lies in the unit interval. -/
theorem segment_confidence_mem (q : ℚ) :
    0 ≤ segment_confidence q ∧ segment_confidence q ≤ 1 :=
  ⟨le_min (by norm_num) (le_max_left 0 (q + 1)), min_le_left 1 _⟩

/-- A list of unit-interval rationals has sum between 0 and its length. -/
theorem sum_bounds_of_unit (l : List ℚ) (h : ∀ x ∈ l, 0 ≤ x ∧ x ≤ 1) :
    0 ≤ l.sum ∧ l.sum ≤ (l.length : ℚ) := by
  induction l with
  | nil => simp
  | cons a t ih =>
      have ha := h a (List.mem_cons_self a t)
      have ht := ih (fun x hx => h x (List.mem_cons_of_mem a hx))
      simp only [List.sum_cons, List.length_cons]
      push_cast
      exact ⟨by linarith [ha.1, ht.1], by linarith [ha.2, ht.2]⟩

/-- The averaged confidence lies in the unit interval. -/
theorem average_confidence_mem (segs : List (Option ℚ)) :
    0 ≤ average_confidence segs ∧ average_confidence segs ≤ 1 := by
  unfold average_confidence
  set l := (segs.filterMap id).map segment_confidence with hl
  by_cases h : 0 < l.length
  · have hb : ∀ x ∈ l, 0 ≤ x ∧ x ≤ 1 := by
      intro x hx
      rw [hl] at hx
      obtain ⟨q, _, rfl⟩ := List.mem_map.mp hx
      exact segment_confidence_mem q
    have hs := sum_bounds_of_unit l hb
    have hpos : (0 : ℚ) < (l.length : ℚ) := by exact_mod_cast h
    rw [if_pos h]
    exact ⟨div_nonneg hs.1 hpos.le, (div_le_one hpos).mpr hs.2⟩
  · rw [if_neg h]
    norm_num

/-- C9: for every model state, file-existence outcome and engine behavior,
the confidence returned by `transcribe_audio_file` lies in the closed unit
interval: every per-segment confidence is clamped before averaging, the
average of clamped values stays in the interval, and every failure path
returns confidence 0. -/
theorem transcribe_confidence_in_unit_interval (p : SpeechToTextProcessor)
    (file_exists : Bool)
    (engine : Except String (String × List (Option ℚ))) :
    0 ≤ (p.transcribe_audio_file file_exists engine).confidence ∧
      (p.transcribe_audio_file file_exists engine).confidence ≤ 1 := by
  unfold SpeechToTextProcessor.transcribe_audio_file
  by_cases hm : p.model = none
  · rw [if_pos hm]; norm_num
  · rw [if_neg hm]
    by_cases hf : file_exists = false
    · rw [if_pos hf]; norm_num
    · rw [if_neg hf]
      cases engine with
      | error e => norm_num
      | ok v =>
          obtain ⟨text, segs⟩ := v
          exact average_confidence_mem segs

/-- C10: `change_model` with a model name outside the fixed available list
returns `False` and leaves the processor — both `model_name` and the loaded
model handle — exactly as it was, whatever the external loader would have
done. -/
theorem change_model_invalid_name_noop (p : SpeechToTextProcessor)
    (loadOk : Bool) (name : String)
    (h : name ∉ SpeechToTextProcessor.get_available_models) :
    p.change_model loadOk name = (p, false) := by
  simp [SpeechToTextProcessor.change_model, h]

/-- Witness for C10: the name `huge` is not an available model, and
changing to it leaves a concrete processor untouched. -/
theorem change_model_invalid_name_noop_witness :
    "huge" ∉ SpeechToTextProcessor.get_available_models ∧
      SpeechToTextProcessor.change_model ⟨"base", some "base"⟩ true "huge"
        = (⟨"base", some "base"⟩, false) :=
  ⟨by decide,
    change_model_invalid_name_noop ⟨"base", some "base"⟩ true "huge" (by decide)⟩

/-! ## The model-swap race (C8)

`_process_transcription` runs `transcribe_audio_file` on a worker thread;
that method reads `self.model` twice — the not-loaded check at its top and
the `self.model.transcribe(...)` call — while `change_model` mutates the
same attribute with no busy check.  Each read and each write group is one
micro-step. -/

inductive JobResult where
  | notLoaded
  | attrError
  | ran (handle : String)
deriving DecidableEq

inductive JobPC where
  | check
  | call
  | done (r : JobResult)
deriving DecidableEq

inductive ChangePC where
  | validate
  | swap
  | load
  | done (r : Bool)
deriving DecidableEq

structure ModelRace where
  proc : SpeechToTextProcessor
  job : JobPC
  changer : ChangePC
deriving DecidableEq

/-- One micro-step of the running transcription job: first the
`if not self.model` check, then the `self.model.transcribe(...)` attribute
read (an `AttributeError` — caught as a transcription error — when the
handle is `None` by then). -/
def jobStep (s : ModelRace) : ModelRace :=
  match s.job with
  | JobPC.check =>
      match s.proc.model with
      | none => { s with job := JobPC.done JobResult.notLoaded }
      | some _ => { s with job := JobPC.call }
  | JobPC.call =>
      match s.proc.model with
      | none => { s with job := JobPC.done JobResult.attrError }
      | some h => { s with job := JobPC.done (JobResult.ran h) }
  | JobPC.done _ => s

/-- One micro-step of `change_model name`: validate the name, then the
`self.model_name = ...; self.model = None` writes, then `_load_model`
setting the fresh handle. -/
def changerStep (name : String) (s : ModelRace) : ModelRace :=
  match s.changer with
  | ChangePC.validate =>
      if name ∈ SpeechToTextProcessor.get_available_models then
        { s with changer := ChangePC.swap }
      else
        { s with changer := ChangePC.done false }
  | ChangePC.swap =>
      { s with proc := { s.proc with model_name := name, model := none },
               changer := ChangePC.load }
  | ChangePC.load =>
      { s with proc := { s.proc with model := some s.proc.model_name },
               changer := ChangePC.done true }
  | ChangePC.done _ => s

/-- Run a schedule (`true` = the job thread moves). -/
def runModelRace (name : String) : List Bool → ModelRace → ModelRace
  | [], s => s
  | c :: cs, s => runModelRace name cs (if c then jobStep s else changerStep name s)

/-- C8 counterexample: with the job mid-run (past its not-loaded check,
taken while the handle was `some "base"`), `change_model "small"` runs to
completion — neither deferred until the job finished nor rejected with a
busy error — and the second read of the shared handle by the job observes the
mid-swap `None`, failing with an attribute error.  The running job thus
observes the engine model handle changing mid-run. -/
theorem model_swap_hits_running_job :
    (runModelRace "small" [true, false, false, true, false]
        ⟨⟨"base", some "base"⟩, JobPC.check, ChangePC.validate⟩).job
        = JobPC.done JobResult.attrError ∧
      (runModelRace "small" [true, false, false, true, false]
          ⟨⟨"base", some "base"⟩, JobPC.check, ChangePC.validate⟩).changer
        = ChangePC.done true ∧
      (runModelRace "small" [true, false, false, true, false]
          ⟨⟨"base", some "base"⟩, JobPC.check, ChangePC.validate⟩).proc.model
        = some "small" := by
  refine ⟨?_, ?_, ?_⟩ <;> rfl

/-- C8 amended: `change_model` implements neither deferral nor a ModelBusy
rejection — the processor carries no busy state at all, and a valid name is
applied to the shared engine handle immediately and unconditionally, so a
concurrently running job can observe the swap (see the counterexample). -/
theorem change_model_applies_immediately (p : SpeechToTextProcessor)
    (loadOk : Bool) (name : String)
    (h : name ∈ SpeechToTextProcessor.get_available_models) :
    p.change_model loadOk name
      = (⟨name, if loadOk then some name else none⟩, loadOk) := by
  simp only [SpeechToTextProcessor.change_model, SpeechToTextProcessor.load_model, h,
    not_true_eq_false, if_false]
  cases loadOk <;> simp

/-- Witness for the amended C8 theorem: swapping a loaded processor to
`small` with a succeeding loader. -/
theorem change_model_applies_immediately_witness :
    SpeechToTextProcessor.change_model ⟨"base", some "base"⟩ true "small"
      = (⟨"small", if true then some "small" else none⟩, true) :=
  change_model_applies_immediately ⟨"base", some "base"⟩ true "small" (by decide)
